import Mathlib

/-!
Shallow embedding of the NPI lookup service (pages/api/fetchNpi.ts, hardened
handler variant). The handler validates a comma-delimited list of NPI
identifiers, fans out one registry lookup per surviving identifier, and
normalizes each raw registry record into a flat display record.

The network and the JavaScript date renderer are modelled as oracles:
`net : String → FetchOutcome` gives the outcome of the single upstream
request issued for an identifier, and `fmtDate : String → Option String`
models `new Date(s).toLocaleDateString("en-US", ...)`, returning `none` when
that computation throws (the try/catch in the source) and `some d` when it
renders the string `d`. All record fields that TypeScript leaves
`undefined` are modelled as `Option String`; JavaScript truthiness on such
fields (where the empty string is falsy) is modelled by `truthy`.
-/

namespace NpiLookup

/-- JavaScript truthiness of an optional string field: `undefined` and the
empty string are falsy, every other string is truthy. -/
def truthy : Option String → Bool
  | none => false
  | some s => !s.isEmpty

/-- JavaScript `x || "N/A"` on an optional string field. -/
def orNA : Option String → String
  | none => "N/A"
  | some s => if s.isEmpty then "N/A" else s

/-- JavaScript `x || ""` on an optional string field. -/
def orEmpty (x : Option String) : String := x.getD ""

/-- Character-level model of JavaScript `s.split(",")`: splits at every
comma, keeping empty segments, and maps the empty string to one empty
segment. -/
def splitCommaChars : List Char → List (List Char)
  | [] => [[]]
  | c :: cs =>
    if c = ',' then [] :: splitCommaChars cs
    else
      match splitCommaChars cs with
      | [] => [[c]]
      | g :: gs => (c :: g) :: gs

/-- JavaScript `s.split(",")` on strings. -/
def splitComma (s : String) : List String :=
  (splitCommaChars s.data).map (fun cs => String.mk cs)

/-- JavaScript `s.trim()`: drops whitespace from both ends. -/
def jsTrim (s : String) : String :=
  String.mk (((s.data.dropWhile Char.isWhitespace).reverse.dropWhile
    Char.isWhitespace).reverse)

/-- The `basic` attribute bag of a raw registry record. -/
structure Basic where
  name_prefix : Option String
  first_name : Option String
  middle_name : Option String
  last_name : Option String
  organization_name : Option String
  sex : Option String
  last_updated : Option String
deriving DecidableEq

/-- One taxonomy entry of a raw registry record. -/
structure Taxonomy where
  desc : Option String
  primary : Option Bool
  license : Option String
  state : Option String
deriving DecidableEq

/-- One address entry of a raw registry record. -/
structure Address where
  address_purpose : String
  address_1 : Option String
  address_2 : Option String
  city : Option String
  state : Option String
  postal_code : Option String
  telephone_number : Option String
  fax_number : Option String
deriving DecidableEq

/-- A raw registry record (interface NpiResultRaw in the source). -/
structure NpiResultRaw where
  enumeration_type : String
  basic : Basic
  taxonomies : List Taxonomy
  addresses : List Address
deriving DecidableEq

/-- A processed display record (interface NpiResultProcessed). Fields other
than the echoed identifier are `Option String` because the error branch of
the source builds the record with them left undefined. -/
structure NpiResultProcessed where
  npi : String
  name : Option String
  entityType : Option String
  sex : Option String
  specialty : Option String
  license : Option String
  licenseState : Option String
  phone : Option String
  fax : Option String
  address : Option String
  lastUpdated : Option String
  error : Option String
deriving DecidableEq

/-- The empty placeholder `\x7b\x7d` used when a record has no taxonomy. -/
def emptyTaxonomy : Taxonomy :=
  { desc := none, primary := none, license := none, state := none }

/-- The empty placeholder `\x7b\x7d` used when a record has no address. -/
def emptyAddress : Address :=
  { address_purpose := "", address_1 := none, address_2 := none, city := none,
    state := none, postal_code := none, telephone_number := none, fax_number := none }

/-- The predicate of `taxonomies.find(t => t.primary === true)`: strict
equality with `true`, so an absent flag does not match. -/
def isPrimaryTaxonomy (t : Taxonomy) : Bool := t.primary == some true

/-- `taxonomies.find(t => t.primary === true) || taxonomies[0] || \x7b\x7d`. -/
def selectTaxonomy (ts : List Taxonomy) : Taxonomy :=
  match ts.find? isPrimaryTaxonomy with
  | some t => t
  | none =>
    match ts with
    | [] => emptyTaxonomy
    | t :: _ => t

/-- The predicate of `addresses.find(a => a.address_purpose === "LOCATION")`. -/
def isLocation (a : Address) : Bool := a.address_purpose == "LOCATION"

/-- The predicate of `addresses.find(a => a.address_purpose === "MAILING")`. -/
def isMailing (a : Address) : Bool := a.address_purpose == "MAILING"

/-- `addresses.find(LOCATION) || addresses.find(MAILING) || addresses[0] || \x7b\x7d`. -/
def selectAddress (as : List Address) : Address :=
  match as.find? isLocation with
  | some a => a
  | none =>
    match as.find? isMailing with
    | some a => a
    | none =>
      match as with
      | [] => emptyAddress
      | a :: _ => a

/-- Name of an individual provider: the guarded template-string composition
from the source, with the trailing `.trim()`. -/
def individualName (b : Basic) : String :=
  if truthy (Basic.name_prefix b) || truthy b.first_name || truthy b.last_name then
    jsTrim (orEmpty (Basic.name_prefix b) ++ " " ++ orEmpty b.first_name ++ " " ++
      (if truthy b.middle_name then orEmpty b.middle_name ++ " " else "") ++
      orEmpty b.last_name)
  else
    "N/A"

/-- Display name: individual composition for NPI-1, organization name (or
"N/A") otherwise. -/
def processedName (isIndividual : Bool) (b : Basic) : String :=
  if isIndividual then individualName b else orNA b.organization_name

/-- Sex display value: only evaluated for truthy `basic.sex` on individuals;
F and M map to the long words, anything else passes through. -/
def sexValue (isIndividual : Bool) (b : Basic) : String :=
  if isIndividual && truthy b.sex then
    let s := orEmpty b.sex
    if s == "F" then "Female" else if s == "M" then "Male" else s
  else
    "N/A"

/-- Last-updated display: when `basic.last_updated` is truthy, render it
through the date oracle; a thrown rendering (`none`) is caught and falls
back to `basic.last_updated || "N/A"`; a falsy raw field gives "N/A". -/
def formatLastUpdated (fmtDate : String → Option String) (b : Basic) : String :=
  if truthy b.last_updated then
    match fmtDate (orEmpty b.last_updated) with
    | some d => d
    | none => orNA b.last_updated
  else
    "N/A"

/-- The parts array pushed by the address-formatting block of the source. -/
def addressParts (a : Address) : List String :=
  (if truthy a.address_1 then [orEmpty a.address_1] else []) ++
  (if truthy a.address_2 then [orEmpty a.address_2] else []) ++
  (if truthy a.city then [orEmpty a.city] else []) ++
  (if truthy a.state && truthy a.postal_code then
    [orEmpty a.state ++ " " ++ orEmpty a.postal_code]
  else
    (if truthy a.state then [orEmpty a.state] else []) ++
    (if truthy a.postal_code then [orEmpty a.postal_code] else []))

/-- Formatted address: only attempted when the primary street line is
truthy; the collected parts are joined with ", ". -/
def formatAddress (a : Address) : String :=
  if truthy a.address_1 then
    let parts := addressParts a
    if parts.length > 0 then String.intercalate ", " parts else "N/A"
  else
    "N/A"

/-- processNpiResult: normalizes one raw registry record into a fully
populated display record. -/
def processNpiResult (fmtDate : String → Option String) (npi : String)
    (result : NpiResultRaw) : NpiResultProcessed :=
  let isIndividual := result.enumeration_type == "NPI-1"
  let basic := result.basic
  let taxonomy := selectTaxonomy result.taxonomies
  let primaryAddress := selectAddress result.addresses
  { npi := npi
    name := some (processedName isIndividual basic)
    entityType := some (if isIndividual then "Individual" else "Organization")
    sex := some (sexValue isIndividual basic)
    specialty := some (orNA taxonomy.desc)
    license := some (orNA taxonomy.license)
    licenseState := some (orNA taxonomy.state)
    phone := some (orNA primaryAddress.telephone_number)
    fax := some (orNA primaryAddress.fax_number)
    address := some (formatAddress primaryAddress)
    lastUpdated := some (formatLastUpdated fmtDate basic)
    error := none }

/-- Outcome of the single upstream request issued for one identifier. -/
inductive FetchOutcome where
  /-- The 5-second deadline elapsed and the request was aborted. -/
  | timeout
  /-- The upstream answered with a non-2xx status. -/
  | httpError (status : Nat)
  /-- The upstream body could not be parsed as the expected JSON envelope. -/
  | malformedPayload
  /-- The upstream answered with an empty results collection. -/
  | noResults
  /-- The upstream answered with a first matching record. -/
  | found (result : NpiResultRaw)

/-- The record built by the error paths of fetchNpiData: only the echoed
identifier and the error tag are set. -/
def errorRecord (npi msg : String) : NpiResultProcessed :=
  { npi := npi, name := none, entityType := none, sex := none, specialty := none,
    license := none, licenseState := none, phone := none, fax := none,
    address := none, lastUpdated := none, error := some msg }

/-- fetchNpiData: one lookup for one identifier. A timeout is caught as an
AbortError and yields the dedicated message; any other thrown failure
(non-2xx status, malformed payload) yields the generic message; an empty
results collection yields the Not found record; otherwise the first raw
result is normalized. -/
def fetchNpiData (fmtDate : String → Option String) (net : String → FetchOutcome)
    (npi : String) : NpiResultProcessed :=
  match net npi with
  | .timeout => errorRecord npi "Request timed out"
  | .httpError _ => errorRecord npi "Failed to retrieve provider data"
  | .malformedPayload => errorRecord npi "Failed to retrieve provider data"
  | .noResults => errorRecord npi "Not found"
  | .found r => processNpiResult fmtDate npi r

/-- MAX_NPIS from the source. -/
def MAX_NPIS : Nat := 10

/-- The length-and-regex test of the validation filter: `n.length === 10`
conjoined with the digits-only test of the regular expression, which
requires a nonempty all-decimal-digit string. -/
def isValidNpiString (n : String) : Bool :=
  n.data.length == 10 && (!n.data.isEmpty && n.data.all Char.isDigit)

/-- The validation pipeline of the handler: split on commas, trim each
candidate, keep the candidates of length 10 matching the digits-only
regular expression, and truncate to the first MAX_NPIS. -/
def validateNpis (npiParam : String) : List String :=
  (((splitComma npiParam).map jsTrim).filter isValidNpiString).take MAX_NPIS

/-- The response of the handler, abstracted from HTTP status and JSON body. -/
inductive HandlerResult where
  /-- Status 405, non-GET method. -/
  | methodNotAllowed
  /-- Status 400, missing or non-string npi query parameter. -/
  | missingParam
  /-- Status 400, no valid NPI numbers provided. -/
  | noValidInput
  /-- Status 200 with the ordered list of display records. -/
  | ok (results : List NpiResultProcessed)
  /-- Status 500, unexpected exception escaping per-identifier handling. -/
  | internalError
deriving DecidableEq

/-- The handler body after the method and parameter-presence checks:
validate, and either fail with the 400 NoValidInput error before any
request is issued, or await the batch of per-identifier lookups assembled
by Promise.all in the input order. -/
def handler (fmtDate : String → Option String) (net : String → FetchOutcome)
    (npiParam : String) : HandlerResult :=
  let npiList := validateNpis npiParam
  if npiList.isEmpty then
    .noValidInput
  else
    .ok (npiList.map (fetchNpiData fmtDate net))

/-- a is the first element of l satisfying p. -/
def firstSuchThat {α : Type} (p : α → Bool) (l : List α) (a : α) : Prop :=
  ∃ i, ∃ hi : i < l.length, l.get ⟨i, hi⟩ = a ∧ p a = true ∧
    ∀ j (hj : j < l.length), j < i → p (l.get ⟨j, hj⟩) = false

/-- Survivor list as the specification words it: candidates that are
exactly 10 characters long and consist solely of decimal digits, truncated
to the first 10. -/
def specSurvivors (npiParam : String) : List String :=
  (((splitComma npiParam).map jsTrim).filter
    (fun n => n.data.length == 10 && n.data.all Char.isDigit)).take 10

/-- Address assembly as the specification words it: street line 1, street
line 2 if present, city if present, then STATE POSTAL as one segment when
both are present, else whichever of state or postal code is present alone,
joined with comma-space; "N/A" when the primary street line is absent or
empty. -/
def specFormatAddress (a : Address) : String :=
  if truthy a.address_1 then
    String.intercalate ", "
      ([orEmpty a.address_1] ++
        (if truthy a.address_2 then [orEmpty a.address_2] else []) ++
        (if truthy a.city then [orEmpty a.city] else []) ++
        (if truthy a.state && truthy a.postal_code then
          [orEmpty a.state ++ " " ++ orEmpty a.postal_code]
        else if truthy a.state then [orEmpty a.state]
        else if truthy a.postal_code then [orEmpty a.postal_code]
        else []))
  else
    "N/A"

/-- The first concrete address of the specification scenario. -/
def springfieldAddress : Address :=
  { emptyAddress with
    address_1 := some "123 Main St"
    city := some "Springfield"
    state := some "IL"
    postal_code := some "62704" }

/-- The second concrete address of the specification scenario: city only. -/
def cityOnlyAddress : Address :=
  { emptyAddress with city := some "Springfield" }

/-- A concrete individual raw record used as a witness input. -/
def janeRaw : NpiResultRaw :=
  ⟨"NPI-1", ⟨some "Dr.", some "Jane", none, some "Doe", none, none, none⟩, [], []⟩

/-- A concrete organization raw record with an unparseable timestamp, used
as a witness input. -/
def staleOrgRaw : NpiResultRaw :=
  ⟨"NPI-2", ⟨none, none, none, none, none, none, some "2023-13-99"⟩, [], []⟩

/-- A record carrying only the echoed identifier and an error tag. -/
def isErrorRecord (r : NpiResultProcessed) : Bool :=
  r.error.isSome && r.name == none && r.entityType == none && r.sex == none &&
  r.specialty == none && r.license == none && r.licenseState == none &&
  r.phone == none && r.fax == none && r.address == none && r.lastUpdated == none

/-- A record with no error tag and every display field populated. -/
def isFullRecord (r : NpiResultProcessed) : Bool :=
  r.error == none && r.name.isSome && r.entityType.isSome && r.sex.isSome &&
  r.specialty.isSome && r.license.isSome && r.licenseState.isSome &&
  r.phone.isSome && r.fax.isSome && r.address.isSome && r.lastUpdated.isSome

/-- The identifier echoed in every branch of fetchNpiData. -/
theorem fetchNpiData_npi (fmtDate : String → Option String)
    (net : String → FetchOutcome) (npi : String) :
    (fetchNpiData fmtDate net npi).npi = npi := by
  unfold fetchNpiData
  cases net npi <;> rfl

theorem find?_first {α : Type} (p : α → Bool) :
    ∀ (l : List α) (a : α), l.find? p = some a → firstSuchThat p l a := by
  intro l
  induction l with
  | nil => intro a h; simp [List.find?] at h
  | cons x xs ih =>
    intro a h
    by_cases hp : p x = true
    · rw [List.find?_cons_of_pos _ hp] at h
      cases h
      exact ⟨0, by simp, rfl, hp, by omega⟩
    · rw [List.find?_cons_of_neg _ (by simpa using hp)] at h
      obtain ⟨i, hi, hget, hpa, hfirst⟩ := ih a h
      refine ⟨i + 1, by simpa using Nat.succ_lt_succ hi, by simpa using hget, hpa, ?_⟩
      intro j hj hji
      cases j with
      | zero => simpa using hp
      | succ k =>
        have hk : k < xs.length := by simpa using hj
        have := hfirst k hk (by omega)
        simpa using this

theorem exists_find?_eq_some {α : Type} (p : α → Bool) :
    ∀ (l : List α), (∃ x ∈ l, p x = true) → ∃ a, l.find? p = some a := by
  intro l
  induction l with
  | nil => intro h; simp at h
  | cons x xs ih =>
    intro h
    by_cases hp : p x = true
    · exact ⟨x, List.find?_cons_of_pos _ hp⟩
    · rw [List.find?_cons_of_neg _ (by simpa using hp)]
      apply ih
      obtain ⟨y, hy, hpy⟩ := h
      cases hy with
      | head => exact absurd hpy hp
      | tail _ hmem => exact ⟨y, hmem, hpy⟩

theorem find?_eq_none_of_all {α : Type} (p : α → Bool) :
    ∀ (l : List α), (∀ x ∈ l, p x = false) → l.find? p = none := by
  intro l
  induction l with
  | nil => intro _; rfl
  | cons x xs ih =>
    intro h
    rw [List.find?_cons_of_neg _ (by simp [h x (by simp)])]
    exact ih (fun y hy => h y (List.mem_cons_of_mem x hy))

theorem selectTaxonomy_of_find? (ts : List Taxonomy) (t : Taxonomy)
    (h : ts.find? isPrimaryTaxonomy = some t) : selectTaxonomy ts = t := by
  unfold selectTaxonomy
  rw [h]

theorem selectAddress_of_find?_location (as : List Address) (a : Address)
    (h : as.find? isLocation = some a) : selectAddress as = a := by
  unfold selectAddress
  rw [h]

/-- C1: the batch dispatcher answers with OK and one DisplayRecord per
surviving identifier, each record echoing its own identifier, so the output
has the length of the surviving list and is in the input order; each record
is the per-identifier lookup outcome, independent of the other identifiers
and of any completion order. -/
theorem handler_output_count_and_order
    (fmtDate : String → Option String) (net : String → FetchOutcome)
    (npiParam : String) (h : validateNpis npiParam ≠ []) :
    handler fmtDate net npiParam =
      HandlerResult.ok ((validateNpis npiParam).map (fetchNpiData fmtDate net)) ∧
    ((validateNpis npiParam).map (fetchNpiData fmtDate net)).length =
      (validateNpis npiParam).length ∧
    ((validateNpis npiParam).map (fetchNpiData fmtDate net)).map
      NpiResultProcessed.npi = validateNpis npiParam := by
  refine ⟨?_, by simp, ?_⟩
  · unfold handler
    simp only [List.isEmpty_iff]
    rw [if_neg h]
  · rw [List.map_map]
    have : ∀ x ∈ validateNpis npiParam,
        (NpiResultProcessed.npi ∘ fetchNpiData fmtDate net) x = id x := by
      intro x _
      simp [fetchNpiData_npi]
    rw [List.map_congr_left this, List.map_id]

theorem handler_output_count_and_order_witness :
    handler (fun _ => none) (fun _ => FetchOutcome.noResults)
        "1417005489,bad,1306849806" =
      HandlerResult.ok ((validateNpis "1417005489,bad,1306849806").map
        (fetchNpiData (fun _ => none) (fun _ => FetchOutcome.noResults))) ∧
    ((validateNpis "1417005489,bad,1306849806").map
      (fetchNpiData (fun _ => none) (fun _ => FetchOutcome.noResults))).length =
      (validateNpis "1417005489,bad,1306849806").length ∧
    ((validateNpis "1417005489,bad,1306849806").map
      (fetchNpiData (fun _ => none) (fun _ => FetchOutcome.noResults))).map
      NpiResultProcessed.npi = validateNpis "1417005489,bad,1306849806" :=
  handler_output_count_and_order _ _ _ (by decide)

/-- C2: the validation pipeline keeps exactly the trimmed 10-digit
candidates, at most MAX_NPIS of them, and a batch with zero survivors fails
with the 400 NoValidInput error independently of the network. -/
theorem validation_pipeline (npiParam : String) :
    validateNpis npiParam = specSurvivors npiParam ∧
    (validateNpis npiParam).length ≤ MAX_NPIS ∧
    (validateNpis npiParam = [] →
      ∀ (fmtDate : String → Option String) (net net' : String → FetchOutcome),
        handler fmtDate net npiParam = HandlerResult.noValidInput ∧
        handler fmtDate net npiParam = handler fmtDate net' npiParam) := by
  refine ⟨?_, ?_, ?_⟩
  · unfold validateNpis specSurvivors
    congr 1
    apply List.filter_congr
    intro n _
    unfold isValidNpiString
    cases hn : n.data with
    | nil => simp
    | cons c cs => simp
  · unfold validateNpis
    exact List.length_take_le MAX_NPIS _
  · intro h fmtDate net net'
    constructor
    · unfold handler
      simp [h]
    · unfold handler
      simp [h]

theorem validation_pipeline_witness :
    validateNpis "12345, 1234567890x ,," = [] ∧
    handler (fun _ => none) (fun _ => FetchOutcome.timeout) "12345, 1234567890x ,," =
      HandlerResult.noValidInput := by
  have h := validation_pipeline "12345, 1234567890x ,,"
  have h0 : validateNpis "12345, 1234567890x ,," = [] := by decide
  exact ⟨h0, (h.2.2 h0 (fun _ => none) (fun _ => FetchOutcome.timeout)
    (fun _ => FetchOutcome.timeout)).1⟩

/-- C3: whatever the per-identifier outcomes are, the batch completes with
one record per surviving identifier, each outcome depending only on its own
identifier; a timeout gives the dedicated Request timed out record, any
other thrown failure the generic record, zero upstream results the Not
found record, and the timeout record differs from the generic one. -/
theorem per_identifier_error_isolation
    (fmtDate : String → Option String) (net : String → FetchOutcome)
    (npiParam npi : String) (h : validateNpis npiParam ≠ []) :
    handler fmtDate net npiParam =
      HandlerResult.ok ((validateNpis npiParam).map (fetchNpiData fmtDate net)) ∧
    (net npi = FetchOutcome.timeout →
      fetchNpiData fmtDate net npi = errorRecord npi "Request timed out") ∧
    (∀ s, net npi = FetchOutcome.httpError s →
      fetchNpiData fmtDate net npi = errorRecord npi "Failed to retrieve provider data") ∧
    (net npi = FetchOutcome.malformedPayload →
      fetchNpiData fmtDate net npi = errorRecord npi "Failed to retrieve provider data") ∧
    (net npi = FetchOutcome.noResults →
      fetchNpiData fmtDate net npi = errorRecord npi "Not found") ∧
    errorRecord npi "Request timed out" ≠ errorRecord npi "Failed to retrieve provider data" := by
  refine ⟨?_, ?_, ?_, ?_, ?_, ?_⟩
  · unfold handler
    simp only [List.isEmpty_iff]
    rw [if_neg h]
  · intro hnet; unfold fetchNpiData; rw [hnet]
  · intro s hnet; unfold fetchNpiData; rw [hnet]
  · intro hnet; unfold fetchNpiData; rw [hnet]
  · intro hnet; unfold fetchNpiData; rw [hnet]
  · intro hcontra
    have := congrArg NpiResultProcessed.error hcontra
    simp [errorRecord] at this

theorem per_identifier_error_isolation_witness :
    handler (fun _ => none) (fun _ => FetchOutcome.timeout) "1417005489,1306849806" =
      HandlerResult.ok [errorRecord "1417005489" "Request timed out",
        errorRecord "1306849806" "Request timed out"] := by
  have h := per_identifier_error_isolation (fun _ => none)
    (fun _ => FetchOutcome.timeout) "1417005489,1306849806" "1417005489" (by decide)
  rw [h.1]
  have hv : validateNpis "1417005489,1306849806" = ["1417005489", "1306849806"] := by decide
  rw [hv]
  rw [List.map_cons, List.map_cons, List.map_nil]
  rw [h.2.1 rfl]
  have h2 := per_identifier_error_isolation (fun _ => none)
    (fun _ => FetchOutcome.timeout) "1417005489,1306849806" "1306849806" (by decide)
  rw [h2.2.1 rfl]

/-- C4: the normalizer picks the primary-flagged taxonomy entry, else the
first entry, else the all-absent placeholder; and the first LOCATION
address, else the first MAILING address, else the first address, else the
empty placeholder. -/
theorem taxonomy_and_address_selection (ts : List Taxonomy) (as : List Address) :
    ((∃ t ∈ ts, isPrimaryTaxonomy t = true) →
      selectTaxonomy ts ∈ ts ∧ isPrimaryTaxonomy (selectTaxonomy ts) = true) ∧
    ((∀ t ∈ ts, isPrimaryTaxonomy t = false) →
      ∀ t₀ l, ts = t₀ :: l → selectTaxonomy ts = t₀) ∧
    (ts = [] → selectTaxonomy ts = emptyTaxonomy ∧
      orNA emptyTaxonomy.desc = "N/A" ∧ orNA emptyTaxonomy.license = "N/A" ∧
      orNA emptyTaxonomy.state = "N/A") ∧
    ((∃ a ∈ as, isLocation a = true) → firstSuchThat isLocation as (selectAddress as)) ∧
    ((∀ a ∈ as, isLocation a = false) → (∃ a ∈ as, isMailing a = true) →
      firstSuchThat isMailing as (selectAddress as)) ∧
    ((∀ a ∈ as, isLocation a = false ∧ isMailing a = false) →
      ∀ a₀ l, as = a₀ :: l → selectAddress as = a₀) ∧
    (as = [] → selectAddress as = emptyAddress) := by
  refine ⟨?_, ?_, ?_, ?_, ?_, ?_, ?_⟩
  · intro hex
    obtain ⟨t, hfind⟩ := exists_find?_eq_some _ _ hex
    rw [selectTaxonomy_of_find? ts t hfind]
    exact ⟨List.mem_of_find?_eq_some hfind, List.find?_some hfind⟩
  · intro hall t₀ l hts
    unfold selectTaxonomy
    rw [find?_eq_none_of_all _ _ hall, hts]
  · intro hts
    subst hts
    exact ⟨rfl, rfl, rfl, rfl⟩
  · intro hex
    obtain ⟨a, hfind⟩ := exists_find?_eq_some _ _ hex
    rw [selectAddress_of_find?_location as a hfind]
    exact find?_first _ _ _ hfind
  · intro hnoloc hex
    obtain ⟨a, hfind⟩ := exists_find?_eq_some _ _ hex
    have : selectAddress as = a := by
      unfold selectAddress
      rw [find?_eq_none_of_all _ _ hnoloc, hfind]
    rw [this]
    exact find?_first _ _ _ hfind
  · intro hall a₀ l has
    unfold selectAddress
    rw [find?_eq_none_of_all _ _ (fun x hx => (hall x hx).1),
      find?_eq_none_of_all _ _ (fun x hx => (hall x hx).2), has]
  · intro has
    subst has
    rfl

theorem taxonomy_and_address_selection_witness :
    selectTaxonomy [emptyTaxonomy, { emptyTaxonomy with primary := some true }] =
      { emptyTaxonomy with primary := some true } := by
  have h := taxonomy_and_address_selection
    [emptyTaxonomy, { emptyTaxonomy with primary := some true }] []
  have hm := h.1 ⟨{ emptyTaxonomy with primary := some true }, by decide, by decide⟩
  rcases hm with ⟨hmem, hflag⟩
  have : selectTaxonomy [emptyTaxonomy, { emptyTaxonomy with primary := some true }] ∈
      [emptyTaxonomy, { emptyTaxonomy with primary := some true }] := hmem
  rcases List.mem_cons.mp this with h0 | h1
  · exact absurd (h0 ▸ hflag) (by decide)
  · simpa using h1

/-- C5: the formatted address agrees with the assembly the specification
describes, is "N/A" exactly on an absent or empty street line, and the two
concrete scenario addresses format as stated. -/
theorem address_formatting (a : Address) :
    formatAddress a = specFormatAddress a ∧
    (truthy a.address_1 = false → formatAddress a = "N/A") ∧
    formatAddress springfieldAddress = "123 Main St, Springfield, IL 62704" ∧
    formatAddress cityOnlyAddress = "N/A" := by
  refine ⟨?_, ?_, by decide, by decide⟩
  · unfold formatAddress specFormatAddress addressParts
    cases h1 : truthy a.address_1
    · rfl
    · simp only [if_pos rfl, h1, if_true]
      cases h2 : truthy a.address_2 <;>
        cases h3 : truthy a.city <;>
          cases h4 : truthy a.state <;>
            cases h5 : truthy a.postal_code <;> simp
  · intro h1
    unfold formatAddress
    rw [h1]
    rfl

theorem address_formatting_witness :
    formatAddress springfieldAddress = "123 Main St, Springfield, IL 62704" ∧
    formatAddress cityOnlyAddress = "N/A" :=
  ⟨(address_formatting cityOnlyAddress).2.2.1,
    (address_formatting cityOnlyAddress).2.1 (by decide)⟩

/-- C6: for an Individual record the display name is the trimmed
prefix-first-middle-last composition, and "N/A" when prefix, first name and
last name are all absent; for an Organization record it is the organization
name, or "N/A" when that is absent. -/
theorem name_composition (fmtDate : String → Option String) (npi : String)
    (r : NpiResultRaw) :
    (r.enumeration_type = "NPI-1" →
      ((truthy (Basic.name_prefix r.basic) || truthy r.basic.first_name ||
          truthy r.basic.last_name) = true →
        (processNpiResult fmtDate npi r).name =
          some (jsTrim (orEmpty (Basic.name_prefix r.basic) ++ " " ++
            orEmpty r.basic.first_name ++ " " ++
            (if truthy r.basic.middle_name then orEmpty r.basic.middle_name ++ " "
              else "") ++
            orEmpty r.basic.last_name))) ∧
      ((truthy (Basic.name_prefix r.basic) || truthy r.basic.first_name ||
          truthy r.basic.last_name) = false →
        (processNpiResult fmtDate npi r).name = some "N/A")) ∧
    (r.enumeration_type ≠ "NPI-1" →
      (processNpiResult fmtDate npi r).name = some (orNA r.basic.organization_name)) := by
  refine ⟨fun htype => ⟨fun hpresent => ?_, fun habsent => ?_⟩, fun htype => ?_⟩
  · simp only [processNpiResult, processedName, individualName]
    rw [if_pos (by simp [htype]), if_pos hpresent]
  · simp only [processNpiResult, processedName, individualName]
    rw [if_pos (by simp [htype]), if_neg (by simp [habsent])]
  · simp only [processNpiResult, processedName]
    rw [if_neg (by simp [htype])]

theorem name_composition_witness :
    (processNpiResult (fun _ => none) "1234567890" janeRaw).name =
      some "Dr. Jane Doe" := by
  have h := name_composition (fun _ => none) "1234567890" janeRaw
  rw [(h.1 rfl).1 (by decide)]
  decide

/-- C7: when the raw last-updated field is a nonempty string, the display
value is the rendered localized date when rendering returns, the raw string
itself when rendering throws, and "N/A" when the raw field is absent or
empty. -/
theorem last_updated_formatting (fmtDate : String → Option String) (npi : String)
    (r : NpiResultRaw) :
    (∀ s, r.basic.last_updated = some s → s ≠ "" →
      (∀ d, fmtDate s = some d →
        (processNpiResult fmtDate npi r).lastUpdated = some d) ∧
      (fmtDate s = none →
        (processNpiResult fmtDate npi r).lastUpdated = some s)) ∧
    ((r.basic.last_updated = none ∨ r.basic.last_updated = some "") →
      (processNpiResult fmtDate npi r).lastUpdated = some "N/A") := by
  constructor
  · intro s hs hne
    have htruthy : truthy r.basic.last_updated = true := by
      rw [hs]
      simp only [truthy, Bool.not_eq_true']
      rw [← Bool.not_eq_true]
      intro hemp
      exact hne ((String.isEmpty_iff s).mp hemp)
    have horEmpty : orEmpty r.basic.last_updated = s := by rw [hs]; rfl
    constructor
    · intro d hd
      simp only [processNpiResult, formatLastUpdated]
      rw [if_pos htruthy, horEmpty, hd]
    · intro hd
      simp only [processNpiResult, formatLastUpdated]
      rw [if_pos htruthy, horEmpty, hd, hs]
      simp only [orNA]
      rw [if_neg (fun hemp => hne ((String.isEmpty_iff s).mp hemp))]
  · intro habs
    simp only [processNpiResult, formatLastUpdated]
    rw [if_neg ?_]
    rcases habs with h | h <;> rw [h] <;> simp [truthy, String.isEmpty_iff]

theorem last_updated_formatting_witness :
    (processNpiResult (fun _ => none) "1234567890" staleOrgRaw).lastUpdated =
      some "2023-13-99" := by
  have h := last_updated_formatting (fun _ => none) "1234567890" staleOrgRaw
  exact (h.1 "2023-13-99" rfl (by decide)).2 rfl

/-- C8: every record of a successful batch response is either a pure error
record with all display fields absent, or a fully populated record with no
error tag, never a mix. -/
theorem record_dichotomy (fmtDate : String → Option String)
    (net : String → FetchOutcome) (npiParam : String)
    (rs : List NpiResultProcessed)
    (h : handler fmtDate net npiParam = HandlerResult.ok rs) :
    ∀ r ∈ rs, (isErrorRecord r = true ∧ isFullRecord r = false) ∨
      (isFullRecord r = true ∧ isErrorRecord r = false) := by
  intro r hr
  have hrs : rs = (validateNpis npiParam).map (fetchNpiData fmtDate net) := by
    unfold handler at h
    by_cases hempty : (validateNpis npiParam).isEmpty
    · rw [if_pos hempty] at h
      cases h
    · rw [if_neg hempty] at h
      cases h
      rfl
  subst hrs
  obtain ⟨x, _, hx⟩ := List.mem_map.mp hr
  subst hx
  unfold fetchNpiData
  cases hnet : net x
  · left; exact ⟨rfl, rfl⟩
  · left; exact ⟨rfl, rfl⟩
  · left; exact ⟨rfl, rfl⟩
  · left; exact ⟨rfl, rfl⟩
  · right; exact ⟨rfl, rfl⟩

theorem record_dichotomy_witness :
    (isErrorRecord (errorRecord "1234567890" "Not found") = true ∧
      isFullRecord (errorRecord "1234567890" "Not found") = false) ∨
    (isFullRecord (errorRecord "1234567890" "Not found") = true ∧
      isErrorRecord (errorRecord "1234567890" "Not found") = false) := by
  have h := record_dichotomy (fun _ => none) (fun _ => FetchOutcome.noResults)
    "1234567890" [errorRecord "1234567890" "Not found"] (by decide)
  exact h (errorRecord "1234567890" "Not found") (by decide)

/-- C9: for an Individual record the sex code F maps to Female, M to Male,
any other nonempty code passes through verbatim, and an absent or empty
code gives "N/A"; for an Organization record the field is always "N/A". -/
theorem sex_mapping (fmtDate : String → Option String) (npi : String)
    (r : NpiResultRaw) :
    (r.enumeration_type = "NPI-1" →
      (r.basic.sex = some "F" → (processNpiResult fmtDate npi r).sex = some "Female") ∧
      (r.basic.sex = some "M" → (processNpiResult fmtDate npi r).sex = some "Male") ∧
      (∀ s, r.basic.sex = some s → s ≠ "" → s ≠ "F" → s ≠ "M" →
        (processNpiResult fmtDate npi r).sex = some s) ∧
      ((r.basic.sex = none ∨ r.basic.sex = some "") →
        (processNpiResult fmtDate npi r).sex = some "N/A")) ∧
    (r.enumeration_type ≠ "NPI-1" →
      (processNpiResult fmtDate npi r).sex = some "N/A") := by
  constructor
  · intro htype
    refine ⟨?_, ?_, ?_, ?_⟩
    · intro hs
      simp only [processNpiResult, sexValue]
      rw [if_pos (by rw [hs]; simp [htype, truthy]; decide)]
      rw [show orEmpty r.basic.sex = "F" from by rw [hs]; rfl]
      rfl
    · intro hs
      simp only [processNpiResult, sexValue]
      rw [if_pos (by rw [hs]; simp [htype, truthy]; decide)]
      rw [show orEmpty r.basic.sex = "M" from by rw [hs]; rfl]
      rfl
    · intro s hs hne hF hM
      simp only [processNpiResult, sexValue]
      rw [if_pos ?_]
      · rw [show orEmpty r.basic.sex = s from by rw [hs]; rfl]
        rw [if_neg (by simpa using hF), if_neg (by simpa using hM)]
      · rw [hs]
        simp only [htype, truthy, Bool.and_eq_true, beq_iff_eq, Bool.not_eq_true']
        refine ⟨by simp, ?_⟩
        rw [← Bool.not_eq_true]
        intro hemp
        exact hne ((String.isEmpty_iff s).mp hemp)
    · intro habs
      simp only [processNpiResult, sexValue]
      rw [if_neg ?_]
      rcases habs with h | h <;> rw [h] <;> simp [truthy, String.isEmpty_iff]
  · intro htype
    simp only [processNpiResult, sexValue]
    rw [if_neg (by simp [htype])]

theorem sex_mapping_witness :
    (processNpiResult (fun _ => none) "1234567890"
      ⟨"NPI-1", ⟨none, none, none, none, none, some "X", none⟩, [], []⟩).sex =
      some "X" := by
  have h := sex_mapping (fun _ => none) "1234567890"
    ⟨"NPI-1", ⟨none, none, none, none, none, some "X", none⟩, [], []⟩
  exact (h.1 rfl).2.2.1 "X" rfl (by decide) (by decide) (by decide)

/-- C10: with more than one primary-flagged taxonomy entry, the earliest
primary-flagged entry in sequence order is selected. -/
theorem multi_primary_tie_break (ts : List Taxonomy) (i j : Nat)
    (hi : i < ts.length) (hj : j < ts.length) (_hij : i ≠ j)
    (hpi : isPrimaryTaxonomy (ts.get ⟨i, hi⟩) = true)
    (_hpj : isPrimaryTaxonomy (ts.get ⟨j, hj⟩) = true) :
    firstSuchThat isPrimaryTaxonomy ts (selectTaxonomy ts) := by
  have hex : ∃ t ∈ ts, isPrimaryTaxonomy t = true :=
    ⟨ts.get ⟨i, hi⟩, List.get_mem ts i hi, hpi⟩
  obtain ⟨t, hfind⟩ := exists_find?_eq_some _ _ hex
  rw [selectTaxonomy_of_find? ts t hfind]
  exact find?_first _ _ _ hfind

theorem multi_primary_tie_break_witness :
    firstSuchThat isPrimaryTaxonomy
      [emptyTaxonomy, { emptyTaxonomy with primary := some true },
        { emptyTaxonomy with primary := some true, desc := some "Dentist" }]
      (selectTaxonomy
        [emptyTaxonomy, { emptyTaxonomy with primary := some true },
          { emptyTaxonomy with primary := some true, desc := some "Dentist" }]) :=
  multi_primary_tie_break _ 1 2 (by decide) (by decide) (by decide)
    (by decide) (by decide)

end NpiLookup
